import Mathlib

/-!
Verification model of `poke_plugin` (src/plugin.py), centred on
`ActivePokeAction`: target resolution (`get_ids`), the self-target guard and
outcome reporting (`execute`), and the gateway call (`send_poke`).

Modelling conventions:
* Python scalars that flow through `str(...)` and truthiness tests are
  modelled by `PyVal` (`none`, integers, strings).
* Each Napcat HTTP exchange is modelled by an oracle response (`GResp` for the
  four lookup endpoints, `PokeResp` for `/send_poke`).  A network error and a
  JSON-parse error inside a lookup helper are indistinguishable in the source
  (both are swallowed by the same `except` and yield `None`), so `GResp.fail`
  covers both; a `data` field that is missing or not a list is collapsed to
  `Option.none`, again because every such shape makes the source return `None`.
* Python's substring operator `a in b` is `pyIn`; `str.join` is `pyJoin`.
* Debug strings reproduce the source's f-strings except that the quote and
  brace characters of Python `dict` reprs are omitted; the substrings the
  claims inspect (error type, error message, rendered response) are kept.
-/

namespace PokePlugin

/-- Python-like scalar value as it flows through the plugin: `None`, an
integer, or a string. -/
inductive PyVal where
  | none
  | int (n : Int)
  | str (s : String)
deriving DecidableEq, Repr

/-- Python truthiness of a `PyVal` (`bool(v)`). -/
def truthy : PyVal → Bool
  | PyVal.none => false
  | PyVal.int n => n != 0
  | PyVal.str s => s != ""

/-- Python `str(v)`. -/
def pyStr : PyVal → String
  | PyVal.none => "None"
  | PyVal.int n => toString n
  | PyVal.str s => s

/-- Helper for `pyIn`: Bool test that `a` occurs contiguously in `l`
(Python's `a in b` on strings, viewed on the char lists). -/
def pyInAux (a : List Char) : List Char → Bool
  | [] => a.isEmpty
  | c :: t => a.isPrefixOf (c :: t) || pyInAux a t

/-- Python's substring operator `a in b` on strings. -/
def pyIn (a b : String) : Bool := pyInAux a.data b.data

/-- Python `sep.join(l)`. -/
def pyJoin (sep : String) : List String → String
  | [] => ""
  | [x] => x
  | x :: y :: xs => x ++ sep ++ pyJoin sep (y :: xs)

/-- A record of a group message from `/get_group_msg_history`:
`raw_message` and `sender.user_id` (`PyVal.none` when the sender record lacks
the field, since `sender.get("user_id")` then yields `None`). -/
structure HistMsg where
  raw_message : String
  sender_user_id : PyVal
deriving DecidableEq, Repr

/-- A `/get_group_member_list` record: `nickname`, `card`, `remark`
(defaulted to `""` by `.get`) and `user_id`. -/
structure Member where
  nickname : String
  card : String
  remark : String
  user_id : PyVal
deriving DecidableEq, Repr

/-- A `/get_friend_list` record: `nickname`, `remark` and `user_id`. -/
structure Friend where
  nickname : String
  remark : String
  user_id : PyVal
deriving DecidableEq, Repr

/-- A `/get_group_list` record: `group_name`, `group_remark` and `group_id`. -/
structure GroupRec where
  group_name : String
  group_remark : String
  group_id : PyVal
deriving DecidableEq, Repr

/-- Oracle response for one lookup-endpoint exchange.  `fail` covers a raised
network error and a JSON-parse failure alike (both hit the helper's `except`
branch and return `None`); `ok status data` is a parsed JSON body, with
`data = Option.none` when the `data` (or `data.messages`) field is missing the
expected list shape. -/
inductive GResp (α : Type) where
  | fail
  | ok (status : Option String) (data : Option α)
deriving DecidableEq, Repr

/-- `ActivePokeAction.napcat_get_user_id_from_group_history_by_msg`
(src/plugin.py lines 324-350): first message whose `raw_message` contains the
keyword gives its `sender.user_id`; every failure shape gives `PyVal.none`. -/
def napcat_get_user_id_from_group_history_by_msg
    (poke_keywords : String) (resp : GResp (List HistMsg)) : PyVal :=
  match resp with
  | GResp.fail => PyVal.none
  | GResp.ok status data =>
    if status = Option.some "ok" then
      match data with
      | Option.some msgs =>
        ((msgs.find? fun m => pyIn poke_keywords m.raw_message).map
          (fun m => m.sender_user_id)).getD PyVal.none
      | Option.none => PyVal.none
    else PyVal.none

/-- `ActivePokeAction.napcat_get_group_member_id_by_name`
(src/plugin.py lines 104-131): first member whose nickname, card or remark
contains the keyword gives its `user_id`. -/
def napcat_get_group_member_id_by_name
    (target_name : String) (resp : GResp (List Member)) : PyVal :=
  match resp with
  | GResp.fail => PyVal.none
  | GResp.ok status data =>
    if status = Option.some "ok" then
      match data with
      | Option.some members =>
        ((members.find? fun m =>
            pyIn target_name m.nickname || pyIn target_name m.card ||
            pyIn target_name m.remark).map (fun m => m.user_id)).getD PyVal.none
      | Option.none => PyVal.none
    else PyVal.none

/-- `ActivePokeAction.napcat_get_user_id_by_name`
(src/plugin.py lines 193-221): first friend whose nickname or remark contains
the keyword gives its `user_id`. -/
def napcat_get_user_id_by_name
    (target_name : String) (resp : GResp (List Friend)) : PyVal :=
  match resp with
  | GResp.fail => PyVal.none
  | GResp.ok status data =>
    if status = Option.some "ok" then
      match data with
      | Option.some friends =>
        ((friends.find? fun f =>
            pyIn target_name f.nickname || pyIn target_name f.remark).map
          (fun f => f.user_id)).getD PyVal.none
      | Option.none => PyVal.none
    else PyVal.none

/-- `ActivePokeAction.napcat_get_group_id_by_name`
(src/plugin.py lines 223-251): first group whose name or remark contains the
keyword gives its `group_id`. -/
def napcat_get_group_id_by_name
    (target_name : String) (resp : GResp (List GroupRec)) : PyVal :=
  match resp with
  | GResp.fail => PyVal.none
  | GResp.ok status data =>
    if status = Option.some "ok" then
      match data with
      | Option.some groups =>
        ((groups.find? fun g =>
            pyIn target_name g.group_name || pyIn target_name g.group_remark).map
          (fun g => g.group_id)).getD PyVal.none
      | Option.none => PyVal.none
    else PyVal.none

/-- A lookup response on which a resolution stage fails: a raised network
error or JSON-parse failure (`GResp.fail`), or a parsed body whose `status`
field is not the literal string `ok` (the logical, non-`ok`-status failure). -/
def respFails {α : Type} : GResp α → Bool
  | GResp.fail => true
  | GResp.ok status _ => status != Option.some "ok"

/-- The context-group computation of `get_ids` (src/plugin.py lines 285-294):
an assignment chain over four sources.  A source that is absent
(`hasattr` fails / `getattr` defaults) is `PyVal.none`, indistinguishable in
Python from the attribute holding `None`.  The first three sources are taken
when non-`None`; the fourth (`self.group_id`) only when additionally truthy. -/
def contextGroup (messageGroupId chatStreamGroupId actionDataGroupId selfGroupId : PyVal) : PyVal :=
  let g := messageGroupId
  let g := if g = PyVal.none then chatStreamGroupId else g
  let g := if g = PyVal.none then actionDataGroupId else g
  if g = PyVal.none then
    (if truthy selfGroupId then selfGroupId else g)
  else g

/-- The Napcat lookup endpoints a resolution may call, plus `/send_poke`. -/
inductive Endpoint where
  | groupHistory
  | memberList
  | friendList
  | groupList
deriving DecidableEq, Repr

/-- Oracle responses for the four lookup endpoints during one resolution. -/
structure ResolveEnv where
  histResp : GResp (List HistMsg)
  memberResp : GResp (List Member)
  friendResp : GResp (List Friend)
  groupListResp : GResp (List GroupRec)
deriving DecidableEq, Repr

/-- Oracle response for the `/send_poke` exchange.  Unlike the lookup
endpoints, `send_poke` distinguishes a raised network error (`netError`, with
the exception's type name and text), a body that is not JSON (`parseError`,
with the raw body), and a parsed body (`parsed`, with its `status` field, the
raw body, and `rendered` standing for `str(data_json)`). -/
inductive PokeResp where
  | netError (errType errMsg : String)
  | parseError (raw : String)
  | parsed (status : Option String) (raw rendered : String)
deriving DecidableEq, Repr

/-- The whole observable input of one `ActivePokeAction.execute` run: the four
context-group sources, `action_data` fields, ambient attributes, config, and
the gateway oracle. -/
structure ActionState where
  messageGroupId : PyVal
  chatStreamGroupId : PyVal
  actionDataGroupId : PyVal
  selfGroupId : PyVal
  poke_keywords : Option String
  ambientUserId : PyVal
  self_id : PyVal
  actionDataUserId : Option PyVal
  poke_debug : Bool
  token : String
  env : ResolveEnv
  sendResp : PokeResp
deriving DecidableEq, Repr

/-- The context group id `get_ids` computes for a state. -/
def ctxOf (st : ActionState) : PyVal :=
  contextGroup st.messageGroupId st.chatStreamGroupId st.actionDataGroupId st.selfGroupId

/-- Python truthiness of the `poke_keywords` entry (`not poke_keywords`). -/
def kwTruthy : Option String → Bool
  | Option.none => false
  | Option.some s => s != ""

/-- Result of `get_ids`: the resolved user and group ids plus, for the frame
claims, the list of lookup endpoints called, in call order. -/
structure GetIdsResult where
  user_id : PyVal
  group_id : PyVal
  calls : List Endpoint
deriving DecidableEq, Repr

/-- `ActivePokeAction.get_ids` (src/plugin.py lines 281-322).  The source's
single mutable `user_id` with its two `if not user_id` fallbacks is linearised
per branch: with a truthy group id, a truthy history hit is returned as is,
otherwise the member-list result (falling back to the ambient `self.user_id`
attribute when falsy); with a falsy group id, the friend-list result (same
ambient fallback) and the group-list lookup. -/
def get_ids (st : ActionState) : GetIdsResult :=
  let group_id := ctxOf st
  match st.poke_keywords with
  | Option.none => ⟨PyVal.none, group_id, []⟩
  | Option.some kw =>
    if kw = "" then ⟨PyVal.none, group_id, []⟩
    else if truthy group_id then
      let u := napcat_get_user_id_from_group_history_by_msg kw st.env.histResp
      if truthy u then ⟨u, group_id, [Endpoint.groupHistory]⟩
      else
        let u2 := napcat_get_group_member_id_by_name kw st.env.memberResp
        ⟨if truthy u2 then u2 else st.ambientUserId, group_id,
          [Endpoint.groupHistory, Endpoint.memberList]⟩
    else
      let u := napcat_get_user_id_by_name kw st.env.friendResp
      let g2 := napcat_get_group_id_by_name kw st.env.groupListResp
      ⟨if truthy u then u else st.ambientUserId, g2,
        [Endpoint.friendList, Endpoint.groupList]⟩

/-- Rendering of the request-headers dict in the debug line (quotes and braces
of the Python repr omitted). -/
def headersStr (token : String) : String :=
  if token = "" then "Content-Type: application/json"
  else "Content-Type: application/json, Authorization: " ++ token

/-- Rendering of the `error_info` dict built in `send_poke`'s `except` branch
(src/plugin.py lines 449-452); it contains the exception's type name and
message text. -/
def errorInfoStr (errType errMsg : String) : String :=
  "error_type=" ++ errType ++ ", error_message=" ++ errMsg

/-- The request-header debug line appended when `poke_debug` is set
(src/plugin.py line 434). -/
def requestDebugMsg (token : String) (user_id group_id : PyVal) : String :=
  "戳一戳请求头: " ++ headersStr token ++ ", user_id: " ++ pyStr user_id ++
    ", group_id: " ++ pyStr group_id

/-- `ActivePokeAction.send_poke` (src/plugin.py lines 418-454): returns the
success flag and the joined debug/response string.  A raised network error
gives `(False, ...)` with the error info; a non-JSON body gives `(True, ...)`
with the raw body; a parsed body gives success exactly when its `status` field
is the string literal `ok`. -/
def send_poke (poke_debug : Bool) (token : String) (user_id group_id : PyVal)
    (resp : PokeResp) : Bool × String :=
  let debug0 : List String :=
    if poke_debug then [requestDebugMsg token user_id group_id] else []
  match resp with
  | PokeResp.netError errType errMsg =>
    (false, pyJoin "\n" (debug0 ++ ["戳一戳异常: " ++ errorInfoStr errType errMsg]))
  | PokeResp.parseError raw =>
    let dm := if poke_debug then debug0 ++ ["戳一戳成功! 响应: " ++ raw] else debug0
    (true, pyJoin "\n" (dm ++ [raw]))
  | PokeResp.parsed status raw rendered =>
    let dm := if poke_debug then debug0 ++ ["戳一戳成功! 响应: " ++ raw] else debug0
    (status == Option.some "ok", pyJoin "\n" (dm ++ [rendered]))

/-- Outcome of one `execute` run: the returned pair, the final state of the
`action_data["user_id"]` entry, the lookup endpoints called, and the
`/send_poke` arguments when that call was made. -/
structure ExecResult where
  success : Bool
  message : String
  actionDataUserId : Option PyVal
  resolveCalls : List Endpoint
  sent : Option (PyVal × PyVal)
deriving DecidableEq, Repr

/-- The self-target guard condition of `execute` (src/plugin.py line 401):
`if self_id and str(user_id) == str(self_id)`. -/
def selfGuardFires (st : ActionState) : Bool :=
  truthy st.self_id && (pyStr (get_ids st).user_id == pyStr st.self_id)

/-- `ActivePokeAction.execute` (src/plugin.py lines 383-416), after the config
hot-reload step (which only refreshes `plugin_config` and is absorbed into the
state).  The self-target guard returns early, before the
`action_data["user_id"]` clearing at lines 408-409; the clearing runs on both
send outcomes.  On failure the message wraps `str(result) or "未知错误"`. -/
def execute (st : ActionState) : ExecResult :=
  let r := get_ids st
  if selfGuardFires st then
    ⟨false, "不能戳自己", st.actionDataUserId, r.calls, Option.none⟩
  else
    let sp := send_poke st.poke_debug st.token r.user_id r.group_id st.sendResp
    let cleared : Option PyVal :=
      match st.actionDataUserId with
      | Option.none => Option.none
      | Option.some _ => Option.some PyVal.none
    if sp.1 then
      ⟨true, "戳一戳操作成功", cleared, r.calls, Option.some (r.user_id, r.group_id)⟩
    else
      ⟨false, "戳一戳操作失败: " ++ (if sp.2 = "" then "未知错误" else sp.2),
        cleared, r.calls, Option.some (r.user_id, r.group_id)⟩

/-- Environment in which all four lookup endpoints fail. -/
def allFailEnv : ResolveEnv := ⟨GResp.fail, GResp.fail, GResp.fail, GResp.fail⟩

/-- State for the C2 witness: the self guard does not fire and
`action_data["user_id"]` is present. -/
def c2wState : ActionState :=
  ⟨PyVal.none, PyVal.none, PyVal.none, PyVal.none, Option.some "x", PyVal.none,
    PyVal.none, Option.some (PyVal.int 3), false, "", allFailEnv,
    PokeResp.netError "OSError" "boom"⟩

/-- State for the C2 counterexample: the self guard fires (resolved target and
`self_id` are both `5`) while `action_data["user_id"]` is present. -/
def c2cState : ActionState :=
  ⟨PyVal.none, PyVal.none, PyVal.none, PyVal.none, Option.some "x", PyVal.int 5,
    PyVal.int 5, Option.some (PyVal.int 3), false, "", allFailEnv,
    PokeResp.netError "OSError" "boom"⟩

/-- State for the C3 counterexample: resolved target and `self_id` are both
the integer `0`, a falsy value, so the guard is skipped. -/
def c3cState : ActionState :=
  ⟨PyVal.none, PyVal.none, PyVal.none, PyVal.none, Option.some "x", PyVal.int 0,
    PyVal.int 0, Option.none, false, "", allFailEnv,
    PokeResp.netError "OSError" "boom"⟩

/-- State for the C3 witness: truthy `self_id = 5` equal to the resolved
target. -/
def c3wState : ActionState :=
  ⟨PyVal.none, PyVal.none, PyVal.none, PyVal.none, Option.some "x", PyVal.int 5,
    PyVal.int 5, Option.none, false, "", allFailEnv,
    PokeResp.netError "OSError" "boom"⟩

/-- State for the C4 witness: known group `10`, history contains a message
matching keyword `ab` with truthy sender id `42`. -/
def c4wState : ActionState :=
  ⟨PyVal.int 10, PyVal.none, PyVal.none, PyVal.none, Option.some "ab",
    PyVal.none, PyVal.none, Option.none, false, "",
    ⟨GResp.ok (Option.some "ok") (Option.some [⟨"xabz", PyVal.int 42⟩]),
      GResp.fail, GResp.fail, GResp.fail⟩,
    PokeResp.netError "OSError" "boom"⟩

/-- State for the C4 counterexample: the first (only) history message matches
keyword `ab` but its sender record has no `user_id` (`None`), and the member
list offers a fuzzy match with id `7`. -/
def c4cState : ActionState :=
  ⟨PyVal.int 10, PyVal.none, PyVal.none, PyVal.none, Option.some "ab",
    PyVal.none, PyVal.none, Option.none, false, "",
    ⟨GResp.ok (Option.some "ok") (Option.some [⟨"xabz", PyVal.none⟩]),
      GResp.ok (Option.some "ok") (Option.some [⟨"ab", "", "", PyVal.int 7⟩]),
      GResp.fail, GResp.fail⟩,
    PokeResp.netError "OSError" "boom"⟩

/-- State for the C5 counterexample: no context group id at all, and the group
list endpoint answers with a group matching the keyword. -/
def c5cState : ActionState :=
  ⟨PyVal.none, PyVal.none, PyVal.none, PyVal.none, Option.some "g",
    PyVal.none, PyVal.none, Option.none, false, "",
    ⟨GResp.fail, GResp.fail, GResp.fail,
      GResp.ok (Option.some "ok") (Option.some [⟨"groupx", "", PyVal.int 99⟩])⟩,
    PokeResp.netError "OSError" "boom"⟩

/-- State for the C5 witness: no context group id, all endpoints failing. -/
def c5wState : ActionState :=
  ⟨PyVal.none, PyVal.none, PyVal.none, PyVal.none, Option.some "g",
    PyVal.none, PyVal.none, Option.none, false, "", allFailEnv,
    PokeResp.netError "OSError" "boom"⟩

/-- State for the C6 witness: known group `10`, every lookup failing — by a
non-`ok` status, a missing status, or a raised error — and no ambient user
id. -/
def c6wState : ActionState :=
  ⟨PyVal.int 10, PyVal.none, PyVal.none, PyVal.none, Option.some "x",
    PyVal.none, PyVal.none, Option.none, false, "",
    ⟨GResp.ok (Option.some "failed") Option.none, GResp.fail,
      GResp.ok Option.none (Option.some []), GResp.fail⟩,
    PokeResp.netError "OSError" "boom"⟩

/-- State for the C7 witness: the `/send_poke` connection raises. -/
def c7wState : ActionState :=
  ⟨PyVal.none, PyVal.none, PyVal.none, PyVal.none, Option.some "x",
    PyVal.none, PyVal.none, Option.none, true, "tok", allFailEnv,
    PokeResp.netError "ConnectionRefusedError" "boom"⟩

/-- State for the C8 counterexample: no target resolves (everything fails) and
`self_id` is the string `"None"`, whose `str` form collides with
`str(None)`. -/
def c8cState : ActionState :=
  ⟨PyVal.none, PyVal.none, PyVal.none, PyVal.none, Option.some "x",
    PyVal.none, PyVal.str "None", Option.none, false, "", allFailEnv,
    PokeResp.parsed (Option.some "failed") "rawbody" "detail123"⟩

/-- State for the C8 witness: no target resolves, `self_id` absent, and the
gateway rejects the poke with a non-`ok` status. -/
def c8wState : ActionState :=
  ⟨PyVal.none, PyVal.none, PyVal.none, PyVal.none, Option.some "x",
    PyVal.none, PyVal.none, Option.none, false, "", allFailEnv,
    PokeResp.parsed (Option.some "failed") "rawbody" "detail123"⟩

/-- The empty string is a Python substring of every char list. -/
theorem pyInAux_nil_left (l : List Char) : pyInAux [] l = true := by
  induction l with
  | nil => rfl
  | cons c t ih => simp [pyInAux]

/-- `isPrefixOf` is stable under extending the big list on the right. -/
theorem isPrefixOf_extend (a l y : List Char) (h : a.isPrefixOf l = true) :
    a.isPrefixOf (l ++ y) = true := by
  rw [ List.isPrefixOf_iff_prefix] at h ⊢
  obtain ⟨t, ht⟩ := h
  exact ⟨t ++ y, by rw [← List.append_assoc, ht]⟩

/-- Occurrence is stable under prepending on the left. -/
theorem pyInAux_append_left (a x l : List Char) (h : pyInAux a l = true) :
    pyInAux a (x ++ l) = true := by
  induction x with
  | nil => simpa using h
  | cons c t ih => simp [pyInAux, ih]

/-- Occurrence is stable under appending on the right. -/
theorem pyInAux_append_right (a l y : List Char) (h : pyInAux a l = true) :
    pyInAux a (l ++ y) = true := by
  induction l with
  | nil =>
    have ha : a = [] := by simpa [pyInAux, List.isEmpty_iff] using h
    subst ha
    simpa using pyInAux_nil_left y
  | cons c t ih =>
    rw [pyInAux] at h
    by_cases h1 : a.isPrefixOf (c :: t) = true
    · have := isPrefixOf_extend a (c :: t) y h1
      simpa [pyInAux] using Or.inl this
    · rw [Bool.not_eq_true] at h1
      rw [h1, Bool.false_or] at h
      simpa [pyInAux] using Or.inr (ih h)

/-- Every char list occurs in itself. -/
theorem pyInAux_self (a : List Char) : pyInAux a a = true := by
  cases a with
  | nil => rfl
  | cons c t =>
    have h : (c :: t).isPrefixOf (c :: t) = true := by
      rw [ List.isPrefixOf_iff_prefix]
    simp [pyInAux, h]

/-- Python `b in b` holds. -/
theorem pyIn_self (b : String) : pyIn b b = true := pyInAux_self b.data

/-- Python `"" in s` holds. -/
theorem pyIn_empty (s : String) : pyIn "" s = true := pyInAux_nil_left s.data

/-- Python containment is preserved when text is prepended. -/
theorem pyIn_append_left (b x s : String) (h : pyIn b s = true) :
    pyIn b (x ++ s) = true := by
  unfold pyIn at h ⊢
  rw [String.data_append]
  exact pyInAux_append_left b.data x.data s.data h

/-- Python containment is preserved when text is appended. -/
theorem pyIn_append_right (b s y : String) (h : pyIn b s = true) :
    pyIn b (s ++ y) = true := by
  unfold pyIn at h ⊢
  rw [String.data_append]
  exact pyInAux_append_right b.data s.data y.data h

/-- `sep.join(l + [x])` ends in `x`. -/
theorem pyJoin_concat (sep : String) (l : List String) (x : String) :
    ∃ p, pyJoin sep (l ++ [x]) = p ++ x := by
  induction l with
  | nil => exact ⟨"", by simp [pyJoin]⟩
  | cons c t ih =>
    obtain ⟨p, hp⟩ := ih
    cases t with
    | nil => exact ⟨c ++ sep, by simp [pyJoin]⟩
    | cons d u =>
      refine ⟨c ++ sep ++ p, ?_⟩
      have : pyJoin sep (c :: d :: (u ++ [x])) = c ++ sep ++ pyJoin sep (d :: (u ++ [x])) := rfl
      simp only [List.cons_append] at hp ⊢
      rw [this, hp, String.append_assoc, String.append_assoc, String.append_assoc]

/-- A string with a non-empty right part is non-empty. -/
theorem append_ne_empty_right (p s : String) (h : s ≠ "") : p ++ s ≠ "" := by
  intro hc
  apply h
  have hd : (p ++ s).data = [] := by rw [hc]
  rw [String.data_append] at hd
  exact String.ext (List.append_eq_nil.mp hd).2

/-- A string with a non-empty left part is non-empty. -/
theorem append_ne_empty_left (p s : String) (h : p ≠ "") : p ++ s ≠ "" := by
  intro hc
  apply h
  have hd : (p ++ s).data = [] := by rw [hc]
  rw [String.data_append] at hd
  exact String.ext (List.append_eq_nil.mp hd).1

/-- If a concatenation is empty, the right part is empty. -/
theorem right_empty_of_append_empty (p s : String) (h : p ++ s = "") : s = "" := by
  have hd : (p ++ s).data = [] := by rw [h]
  rw [String.data_append] at hd
  exact String.ext (List.append_eq_nil.mp hd).2

/-- C1 counterexample: a `/send_poke` response body that is not JSON makes
`send_poke` report SUCCESS (the inner `except` around `json.loads` returns
`True`), contradicting the claim that a parse error yields a Failure and that
success requires a parsed body with `status == "ok"`. -/
theorem c1_counterexample :
    (send_poke false "" PyVal.none PyVal.none (PokeResp.parseError "not json")).1 = true := by
  decide

/-- C1 amended: `send_poke` reports success iff the HTTP exchange does not
raise and the body either fails to parse as JSON or parses with its `status`
field equal to the literal string `ok`; a parse error yields success, not
failure. -/
theorem c1_amended (poke_debug : Bool) (token : String) (user_id group_id : PyVal)
    (resp : PokeResp) :
    (send_poke poke_debug token user_id group_id resp).1 = true ↔
      ((∃ raw, resp = PokeResp.parseError raw) ∨
        ∃ raw rendered, resp = PokeResp.parsed (Option.some "ok") raw rendered) := by
  cases resp with
  | netError errType errMsg => simp [send_poke]
  | parseError raw => simp [send_poke]
  | parsed status raw rendered => simp [send_poke]

/-- C9: the self-target guard fires — equivalently, `/send_poke` is never
invoked — exactly when `self_id` is truthy and `str(user_id) == str(self_id)`
on the resolved target; in particular a falsy or absent `self_id` always lets
execution proceed to the `/send_poke` call. -/
theorem c9_theorem (st : ActionState) :
    (execute st).sent = Option.none ↔
      (truthy st.self_id = true ∧ pyStr (get_ids st).user_id = pyStr st.self_id) := by
  have hg : selfGuardFires st = true ↔
      (truthy st.self_id = true ∧ pyStr (get_ids st).user_id = pyStr st.self_id) := by
    simp [selfGuardFires]
  rw [← hg]
  cases hguard : selfGuardFires st with
  | true => simp [execute, hguard]
  | false =>
    simp only [execute, hguard, Bool.false_eq_true, iff_false]
    split
    · simp_all
    · split <;> simp

/-- C10 counterexample: with the first three group-id sources absent and the
action object's own `group_id` attribute equal to the integer `0` (a value
that is not `None`), the resolver leaves the context group id `None` — the
fourth source is consulted only when truthy, not merely non-`None`. -/
theorem c10_counterexample :
    contextGroup PyVal.none PyVal.none PyVal.none (PyVal.int 0) = PyVal.none ∧
      PyVal.int 0 ≠ PyVal.none := by
  decide

/-- C10 amended: the context group id is the first non-`None` value among
`message.message_info.group_id`, `chat_stream.group_id` and
`action_data["group_id"]`; the action object's own `group_id` attribute is
used only when all three are `None` and it is truthy, otherwise the context
group id stays `None`. -/
theorem c10_amended (m c a s : PyVal) :
    (m ≠ PyVal.none → contextGroup m c a s = m) ∧
    (m = PyVal.none → c ≠ PyVal.none → contextGroup m c a s = c) ∧
    (m = PyVal.none → c = PyVal.none → a ≠ PyVal.none → contextGroup m c a s = a) ∧
    (m = PyVal.none → c = PyVal.none → a = PyVal.none → truthy s = true →
      contextGroup m c a s = s) ∧
    (m = PyVal.none → c = PyVal.none → a = PyVal.none → truthy s = false →
      contextGroup m c a s = PyVal.none) := by
  refine ⟨?_, ?_, ?_, ?_, ?_⟩ <;> intros <;> simp [contextGroup, *]

/-- C10 witness: the amended precedence evaluated at concrete inputs. -/
theorem c10_witness :
    contextGroup (PyVal.int 1) PyVal.none PyVal.none PyVal.none = PyVal.int 1 ∧
      contextGroup PyVal.none PyVal.none PyVal.none (PyVal.int 2) = PyVal.int 2 :=
  ⟨(c10_amended (PyVal.int 1) PyVal.none PyVal.none PyVal.none).1 (by decide),
    (c10_amended PyVal.none PyVal.none PyVal.none (PyVal.int 2)).2.2.2.1 rfl rfl rfl (by decide)⟩

/-- C2 counterexample: when the self-target guard fires, `execute` returns at
line 403 before the clearing at lines 408-409, so a present
`action_data["user_id"]` entry keeps its stale value — contradicting
"cleared whatever the outcome". -/
theorem c2_counterexample :
    (execute c2cState).message = "不能戳自己" ∧
      (execute c2cState).actionDataUserId = Option.some (PyVal.int 3) ∧
      (execute c2cState).actionDataUserId ≠ Option.some PyVal.none := by
  decide

/-- C2 amended: the `action_data["user_id"]` entry, when present, is cleared
(set to `None`) whenever execution reaches the send attempt — on both success
and failure of `/send_poke` — but not when `execute` returns early on the
self-target rejection (or on an exception raised before the clearing line). -/
theorem c2_amended (st : ActionState) (v : PyVal)
    (hguard : selfGuardFires st = false)
    (hpresent : st.actionDataUserId = Option.some v) :
    (execute st).actionDataUserId = Option.some PyVal.none := by
  simp only [execute, hguard, hpresent]
  split
  · simp_all
  · split <;> rfl

/-- C2 witness: a run whose guard does not fire clears a present entry. -/
theorem c2_witness :
    selfGuardFires c2wState = false ∧
      (execute c2wState).actionDataUserId = Option.some PyVal.none :=
  ⟨by decide, c2_amended c2wState (PyVal.int 3) (by decide) (by decide)⟩

/-- C3 counterexample: the resolved target equals the supplied `self_id`
(both are the integer `0`, via the ambient `self.user_id` fallback), yet
because `0` is falsy the guard `if self_id and ...` is skipped: the
`/send_poke` call IS made and the outcome is not `(false, "不能戳自己")`. -/
theorem c3_counterexample :
    (get_ids c3cState).user_id = c3cState.self_id ∧
      (execute c3cState).sent = Option.some (PyVal.int 0, PyVal.none) ∧
      (execute c3cState).message ≠ "不能戳自己" := by
  decide

/-- C3 amended: whenever `self_id` is truthy and the resolved target's string
form equals `str(self_id)`, the `/send_poke` call is never made and the
outcome is `(false, "不能戳自己")`. -/
theorem c3_amended (st : ActionState)
    (h1 : truthy st.self_id = true)
    (h2 : pyStr (get_ids st).user_id = pyStr st.self_id) :
    (execute st).success = false ∧ (execute st).message = "不能戳自己" ∧
      (execute st).sent = Option.none := by
  have hguard : selfGuardFires st = true := by simp [selfGuardFires, h1, h2]
  simp [execute, hguard]

/-- C3 witness: a run with truthy `self_id = 5` and resolved target `5` is
rejected without a gateway call. -/
theorem c3_witness :
    (execute c3wState).success = false ∧ (execute c3wState).message = "不能戳自己" ∧
      (execute c3wState).sent = Option.none :=
  c3_amended c3wState (by decide) (by decide)

/-- C4 counterexample: the keyword matches the first (and only) history
message, but that message's sender record lacks `user_id`, so the helper
returns `None`; `get_ids` then DOES call the member-list endpoint and returns
its match `7` instead of the matching message's sender id. -/
theorem c4_counterexample :
    Endpoint.memberList ∈ (get_ids c4cState).calls ∧
      (get_ids c4cState).user_id = PyVal.int 7 ∧
      (get_ids c4cState).user_id ≠ PyVal.none := by
  decide

/-- C4 amended: with a truthy context group id, a non-empty keyword, and a
history response whose first keyword-matching message has a truthy sender
`user_id`, resolution returns that sender id and the member-list endpoint is
not called (only the history endpoint is). -/
theorem c4_amended (st : ActionState) (kw : String) (msgs : List HistMsg) (m : HistMsg)
    (hkw : st.poke_keywords = Option.some kw)
    (hne : ¬ kw = "")
    (hctx : truthy (ctxOf st) = true)
    (hhist : st.env.histResp = GResp.ok (Option.some "ok") (Option.some msgs))
    (hfind : msgs.find? (fun x => pyIn kw x.raw_message) = Option.some m)
    (htru : truthy m.sender_user_id = true) :
    (get_ids st).user_id = m.sender_user_id ∧
      Endpoint.memberList ∉ (get_ids st).calls ∧
      (get_ids st).calls = [Endpoint.groupHistory] := by
  have hu : napcat_get_user_id_from_group_history_by_msg kw st.env.histResp
      = m.sender_user_id := by
    rw [hhist]
    simp [napcat_get_user_id_from_group_history_by_msg, hfind]
  simp [get_ids, hkw, hne, hctx, hu, htru]

/-- C4 witness: keyword `ab` matches the history message with sender `42`. -/
theorem c4_witness :
    (get_ids c4wState).user_id = PyVal.int 42 ∧
      Endpoint.memberList ∉ (get_ids c4wState).calls ∧
      (get_ids c4wState).calls = [Endpoint.groupHistory] :=
  c4_amended c4wState "ab" [⟨"xabz", PyVal.int 42⟩] ⟨"xabz", PyVal.int 42⟩
    (by decide) (by decide) (by decide) (by decide) (by decide) (by decide)

/-- C5 counterexample: with no context group id, `get_ids` queries the
group-list endpoint (to resolve a group id from the keyword) in addition to
the friend list — contradicting "the only endpoint it queries is the friend
list". -/
theorem c5_counterexample :
    Endpoint.groupList ∈ (get_ids c5cState).calls ∧
      (get_ids c5cState).group_id = PyVal.int 99 := by
  decide

/-- C5 amended: when the context group id is absent, resolution never calls
the group-member-list or group-message-history endpoints; for user resolution
it queries only the friend list, and it additionally queries the group-list
endpoint to resolve a group id (both only when the keyword is truthy; a falsy
keyword makes it return without any gateway call). -/
theorem c5_amended (st : ActionState)
    (hctx : ctxOf st = PyVal.none) :
    Endpoint.groupHistory ∉ (get_ids st).calls ∧
      Endpoint.memberList ∉ (get_ids st).calls ∧
      (kwTruthy st.poke_keywords = true →
        (get_ids st).calls = [Endpoint.friendList, Endpoint.groupList]) ∧
      (kwTruthy st.poke_keywords = false → (get_ids st).calls = []) := by
  cases hkw : st.poke_keywords with
  | none => simp [get_ids, hkw, kwTruthy]
  | some kw =>
    by_cases hne : kw = ""
    · subst hne
      simp [get_ids, hkw, kwTruthy]
    · have h1 : truthy PyVal.none = false := rfl
      simp [get_ids, hkw, hne, hctx, kwTruthy, h1]

/-- C5 witness: absent context group, truthy keyword — exactly the friend
list and group list are called. -/
theorem c5_witness :
    (get_ids c5wState).calls = [Endpoint.friendList, Endpoint.groupList] :=
  (c5_amended c5wState (by decide)).2.2.1 (by decide)

/-- C6: every gateway failure of any kind — raised network error, JSON-parse
failure, or a parsed body with non-`ok` status (`respFails`) — is absorbed by
each lookup helper as a `None` result (no exception escapes the total
resolver), and if every stage fails in any of these ways with no ambient
`self.user_id`, resolution returns `(None, contextGroupId)` with the context
group kept exactly when it is truthy (the source's own notion of a known
group id). -/
theorem c6_theorem (st : ActionState)
    (hk : kwTruthy st.poke_keywords = true)
    (hh : respFails st.env.histResp = true)
    (hm : respFails st.env.memberResp = true)
    (hf : respFails st.env.friendResp = true)
    (hg : respFails st.env.groupListResp = true)
    (hamb : st.ambientUserId = PyVal.none) :
    (get_ids st).user_id = PyVal.none ∧
      (get_ids st).group_id = (if truthy (ctxOf st) then ctxOf st else PyVal.none) ∧
      (∀ (kw2 : String) (resp : GResp (List HistMsg)), respFails resp = true →
        napcat_get_user_id_from_group_history_by_msg kw2 resp = PyVal.none) ∧
      (∀ (kw2 : String) (resp : GResp (List Member)), respFails resp = true →
        napcat_get_group_member_id_by_name kw2 resp = PyVal.none) ∧
      (∀ (kw2 : String) (resp : GResp (List Friend)), respFails resp = true →
        napcat_get_user_id_by_name kw2 resp = PyVal.none) ∧
      (∀ (kw2 : String) (resp : GResp (List GroupRec)), respFails resp = true →
        napcat_get_group_id_by_name kw2 resp = PyVal.none) := by
  have habs1 : ∀ (kw2 : String) (resp : GResp (List HistMsg)), respFails resp = true →
      napcat_get_user_id_from_group_history_by_msg kw2 resp = PyVal.none := by
    intro kw2 resp hfail
    cases resp with
    | fail => rfl
    | ok status data =>
      have hst : ¬ status = Option.some "ok" := by simpa [respFails] using hfail
      simp [napcat_get_user_id_from_group_history_by_msg, hst]
  have habs2 : ∀ (kw2 : String) (resp : GResp (List Member)), respFails resp = true →
      napcat_get_group_member_id_by_name kw2 resp = PyVal.none := by
    intro kw2 resp hfail
    cases resp with
    | fail => rfl
    | ok status data =>
      have hst : ¬ status = Option.some "ok" := by simpa [respFails] using hfail
      simp [napcat_get_group_member_id_by_name, hst]
  have habs3 : ∀ (kw2 : String) (resp : GResp (List Friend)), respFails resp = true →
      napcat_get_user_id_by_name kw2 resp = PyVal.none := by
    intro kw2 resp hfail
    cases resp with
    | fail => rfl
    | ok status data =>
      have hst : ¬ status = Option.some "ok" := by simpa [respFails] using hfail
      simp [napcat_get_user_id_by_name, hst]
  have habs4 : ∀ (kw2 : String) (resp : GResp (List GroupRec)), respFails resp = true →
      napcat_get_group_id_by_name kw2 resp = PyVal.none := by
    intro kw2 resp hfail
    cases resp with
    | fail => rfl
    | ok status data =>
      have hst : ¬ status = Option.some "ok" := by simpa [respFails] using hfail
      simp [napcat_get_group_id_by_name, hst]
  cases hkw : st.poke_keywords with
  | none =>
    rw [hkw] at hk
    simp [kwTruthy] at hk
  | some kw =>
    have hne : ¬ kw = "" := by
      rw [hkw] at hk
      simpa [kwTruthy] using hk
    have h1 : truthy PyVal.none = false := rfl
    have huh : napcat_get_user_id_from_group_history_by_msg kw st.env.histResp = PyVal.none :=
      habs1 kw st.env.histResp hh
    have hum : napcat_get_group_member_id_by_name kw st.env.memberResp = PyVal.none :=
      habs2 kw st.env.memberResp hm
    have huf : napcat_get_user_id_by_name kw st.env.friendResp = PyVal.none :=
      habs3 kw st.env.friendResp hf
    have hug : napcat_get_group_id_by_name kw st.env.groupListResp = PyVal.none :=
      habs4 kw st.env.groupListResp hg
    have hmain : (get_ids st).user_id = PyVal.none ∧
        (get_ids st).group_id = (if truthy (ctxOf st) then ctxOf st else PyVal.none) := by
      by_cases hctx : truthy (ctxOf st) = true
      · constructor
        · simp [get_ids, hkw, hne, hctx, huh, hum, hamb, h1]
        · simp [get_ids, hkw, hne, hctx, huh, hum, h1]
      · constructor
        · simp [get_ids, hkw, hne, hctx, huf, hamb, h1]
        · simp [get_ids, hkw, hne, hctx, hug]
    exact ⟨hmain.1, hmain.2, habs1, habs2, habs3, habs4⟩

/-- C6 witness: a known group `10` with every endpoint failing — two raised
errors, one `status = "failed"` body and one body with a missing status —
resolves to `(None, 10)`. -/
theorem c6_witness :
    (get_ids c6wState).user_id = PyVal.none ∧
      (get_ids c6wState).group_id =
        (if truthy (ctxOf c6wState) then ctxOf c6wState else PyVal.none) :=
  ⟨(c6_theorem c6wState (by decide) (by decide) (by decide) (by decide) (by decide) rfl).1,
    (c6_theorem c6wState (by decide) (by decide) (by decide) (by decide) (by decide) rfl).2.1⟩

/-- C7: when the HTTP connection raises during the `/send_poke` call, the
outcome is `(false, <message>)` where the message contains the exception's
type name and text; the embedded `execute` is total, no fault reaches its
caller. -/
theorem c7_theorem (st : ActionState) (errType errMsg : String)
    (hresp : st.sendResp = PokeResp.netError errType errMsg)
    (hguard : selfGuardFires st = false) :
    (execute st).success = false ∧
      pyIn errType (execute st).message = true ∧
      pyIn errMsg (execute st).message = true := by
  obtain ⟨p, hp⟩ := pyJoin_concat "\n"
    (if st.poke_debug then
        [requestDebugMsg st.token (get_ids st).user_id (get_ids st).group_id]
      else [])
    ("戳一戳异常: " ++ errorInfoStr errType errMsg)
  have hJ : (send_poke st.poke_debug st.token (get_ids st).user_id (get_ids st).group_id
        st.sendResp).2 = p ++ ("戳一戳异常: " ++ errorInfoStr errType errMsg) := by
    rw [hresp]
    exact hp
  have hfst : (send_poke st.poke_debug st.token (get_ids st).user_id (get_ids st).group_id
        st.sendResp).1 = false := by
    rw [hresp]
    rfl
  have hne2 : (send_poke st.poke_debug st.token (get_ids st).user_id (get_ids st).group_id
        st.sendResp).2 ≠ "" := by
    rw [hJ]
    exact append_ne_empty_right _ _ (append_ne_empty_left _ _ (by decide))
  have hmsg : (execute st).message = "戳一戳操作失败: " ++
      (send_poke st.poke_debug st.token (get_ids st).user_id (get_ids st).group_id
        st.sendResp).2 := by
    simp only [execute, hguard, Bool.false_eq_true]
    split
    · simp_all
    · simp [hfst, hne2]
  have hsuccess : (execute st).success = false := by
    simp only [execute, hguard, Bool.false_eq_true]
    split
    · simp_all
    · simp [hfst]
  refine ⟨hsuccess, ?_, ?_⟩
  · rw [hmsg, hJ]
    apply pyIn_append_left
    apply pyIn_append_left
    apply pyIn_append_left
    unfold errorInfoStr
    apply pyIn_append_right
    apply pyIn_append_right
    apply pyIn_append_left
    exact pyIn_self errType
  · rw [hmsg, hJ]
    apply pyIn_append_left
    apply pyIn_append_left
    apply pyIn_append_left
    unfold errorInfoStr
    apply pyIn_append_left
    exact pyIn_self errMsg

/-- C7 witness: a concrete run whose `/send_poke` connection raises
`ConnectionRefusedError: boom`. -/
theorem c7_witness :
    (execute c7wState).success = false ∧
      pyIn "ConnectionRefusedError" (execute c7wState).message = true ∧
      pyIn "boom" (execute c7wState).message = true :=
  c7_theorem c7wState "ConnectionRefusedError" "boom" rfl (by decide)

/-- C8 counterexample: resolution yields no UserIdentity, yet the action DOES
reject locally: with `self_id` equal to the string `"None"`,
`str(None) == str(self_id)` holds, the guard fires, `/send_poke` is never
invoked and the outcome is the self-rejection — contradicting "the action
does not reject locally and still invokes /send_poke". -/
theorem c8_counterexample :
    (get_ids c8cState).user_id = PyVal.none ∧
      (execute c8cState).sent = Option.none ∧
      (execute c8cState).message = "不能戳自己" := by
  decide

/-- C8 amended: when resolution yields no UserIdentity and the self-target
guard does not fire (it fires on an unresolved target exactly when `self_id`
is truthy with string form `"None"`), the action still invokes `/send_poke`
with a `None` user id, and on a gateway rejection (parsed body with non-`ok`
status) reports failure with the gateway's rendered response embedded in the
message. -/
theorem c8_amended (st : ActionState) (status : Option String) (raw rendered : String)
    (hunres : (get_ids st).user_id = PyVal.none)
    (hguard : selfGuardFires st = false)
    (hresp : st.sendResp = PokeResp.parsed status raw rendered)
    (hstatus : ¬ status = Option.some "ok") :
    (execute st).sent = Option.some (PyVal.none, (get_ids st).group_id) ∧
      (execute st).success = false ∧
      pyIn rendered (execute st).message = true := by
  obtain ⟨p, hp⟩ := pyJoin_concat "\n"
    (if st.poke_debug then
        (if st.poke_debug then
            [requestDebugMsg st.token (get_ids st).user_id (get_ids st).group_id]
          else []) ++ ["戳一戳成功! 响应: " ++ raw]
      else
        (if st.poke_debug then
            [requestDebugMsg st.token (get_ids st).user_id (get_ids st).group_id]
          else []))
    rendered
  have hJ : (send_poke st.poke_debug st.token (get_ids st).user_id (get_ids st).group_id
        st.sendResp).2 = p ++ rendered := by
    rw [hresp]
    exact hp
  have hfst : (send_poke st.poke_debug st.token (get_ids st).user_id (get_ids st).group_id
        st.sendResp).1 = false := by
    rw [hresp]
    simp [send_poke, hstatus]
  have hsent : (execute st).sent
      = Option.some ((get_ids st).user_id, (get_ids st).group_id) := by
    simp only [execute, hguard, Bool.false_eq_true]
    split
    · simp_all
    · split <;> rfl
  have hsuccess : (execute st).success = false := by
    simp only [execute, hguard, Bool.false_eq_true]
    split
    · simp_all
    · simp [hfst]
  have hmsg : pyIn rendered (execute st).message = true := by
    by_cases hz : (send_poke st.poke_debug st.token (get_ids st).user_id (get_ids st).group_id
        st.sendResp).2 = ""
    · have hrz : rendered = "" := by
        apply right_empty_of_append_empty p rendered
        rw [← hJ]
        exact hz
      rw [hrz]
      exact pyIn_empty _
    · have hmsg2 : (execute st).message = "戳一戳操作失败: " ++
          (send_poke st.poke_debug st.token (get_ids st).user_id (get_ids st).group_id
            st.sendResp).2 := by
        simp only [execute, hguard, Bool.false_eq_true]
        split
        · simp_all
        · simp [hfst, hz]
      rw [hmsg2, hJ]
      apply pyIn_append_left
      apply pyIn_append_left
      exact pyIn_self rendered
  constructor
  · rw [hsent, hunres]
  · exact ⟨hsuccess, hmsg⟩

/-- C8 witness: unresolved target, absent `self_id`, gateway answers
`status = "failed"` — the poke is sent with a `None` user id and the failure
message carries the gateway's rendered response. -/
theorem c8_witness :
    (execute c8wState).sent = Option.some (PyVal.none, (get_ids c8wState).group_id) ∧
      (execute c8wState).success = false ∧
      pyIn "detail123" (execute c8wState).message = true :=
  c8_amended c8wState (Option.some "failed") "rawbody" "detail123"
    (by decide) (by decide) rfl (by decide)

end PokePlugin
